import Mathlib

/-!
# Verification of the trashion inventory monitor (`src/trashion_render.py`)

A shallow embedding of the scrape/diff/notify service: the time gate
(`is_business_hours`), the pagination-expansion scrape loop
(`scrape_full_inventory`), the sold-item diff (`check_sold_items`), the
Discord notifier (`notify_discord`), one iteration of the background
monitoring loop (`monitor_cycle`), and the HTTP handlers `get_inventory`
and `force_check`.

External effects are threaded explicitly: the two JSON files become a
`StoreState` of two `Option SnapshotData`, the local clock becomes an
`Option LocalTime` (where `none` models a timezone-lookup exception), the
browser becomes a `PageBehaviour` oracle, and each step function returns
the new store state together with observation flags (whether a browser
scrape was performed, whether the notifier was invoked, whether the
previous snapshot was promoted).
-/

namespace Trashion

/-- A local wall-clock time in the configured timezone (Python's
`datetime.now(finland_tz)`), reduced to the fields the program reads. -/
structure LocalTime where
  hour : Nat
  minute : Nat
  deriving Repr, DecidableEq

/-- The JSON dict a scrape produces and the two snapshot files persist
(`{success, ids, count, timestamp, clicks, from_cache, ...}` plus the
`note`/`cache_age_seconds` keys some handlers add). -/
structure SnapshotData where
  success : Bool
  ids : List String
  count : Nat
  timestamp : Nat
  clicks : Nat
  from_cache : Bool
  note : Option String
  cache_age_seconds : Option Nat
  deriving Repr, DecidableEq

/-- The two persisted files: `DATA_FILE` (`current`) and
`PREVIOUS_DATA_FILE` (`previous`); `none` means the file does not exist. -/
structure StoreState where
  dataFile : Option SnapshotData
  previousFile : Option SnapshotData
  deriving Repr, DecidableEq

/-- `is_business_hours()`: `BUSINESS_START <= now.hour < BUSINESS_END` on the
local clock; any exception in the timezone lookup is caught and the
function returns `True` (fail open). `time = none` models that exception. -/
def is_business_hours (start stop : Nat) (time : Option LocalTime) : Bool :=
  match time with
  | some now => decide (start ≤ now.hour ∧ now.hour < stop)
  | none => true

/-- `check_sold_items()`: returns `[]` when `PREVIOUS_DATA_FILE` does not
exist; on a read error (here: `DATA_FILE` absent) the exception is caught
and `[]` returned; otherwise `sorted(set(prev.ids) - set(curr.ids))` — the
set difference is the duplicate-free sublist of `prev.ids` avoiding
`curr.ids`, emitted in ascending order. -/
def check_sold_items (previousFile dataFile : Option SnapshotData) : List String :=
  match previousFile with
  | none => []
  | some prev =>
    match dataFile with
    | none => []
    | some curr =>
      List.insertionSort (· ≤ ·)
        (prev.ids.dedup.filter (fun i => decide (i ∉ curr.ids)))

/-- The behaviour of the rendered page across expansion iterations:
the identifiers extracted from the markup before the n-th click attempt,
visibility of the `.wpgb-load-more` control before that attempt, whether
locating/clicking it raises, and the identifiers of the final extraction. -/
structure PageBehaviour where
  idsAt : Nat → List String
  loadMoreVisible : Nat → Bool
  clickRaises : Nat → Bool
  finalIds : List String

/-- The `while clicks < max_clicks` body: extract ids into the
accumulating set (modelled as list concatenation, deduplicated when the
final sorted list is built), then break if locating the control raises or
it is not visible, else click (incrementing `clicks`) and repeat. `fuel`
is `max_clicks - clicks`, so the fuel recursion is exactly the loop
guard. -/
def loadMoreLoop (pb : PageBehaviour) : Nat → Nat → List String → List String × Nat
  | 0, clicks, acc => (acc, clicks)
  | fuel + 1, clicks, acc =>
    let acc' := acc ++ pb.idsAt clicks
    if pb.clickRaises clicks then (acc', clicks)
    else if pb.loadMoreVisible clicks then loadMoreLoop pb fuel (clicks + 1) acc'
    else (acc', clicks)

/-- `max_clicks = 20` in `scrape_full_inventory`. -/
def max_clicks : Nat := 20

/-- The browser part of `scrape_full_inventory`: run the expansion loop
from `clicks = 0` with an empty set, add the final extraction, and return
`sorted(list(all_ids))` (the distinct accumulated identifiers in
ascending order) with the click count. -/
def scrapePage (pb : PageBehaviour) : List String × Nat :=
  let r := loadMoreLoop pb max_clicks 0 []
  (List.insertionSort (· ≤ ·) ((r.1 ++ pb.finalIds).dedup), r.2)

/-- The result of an inventory-producing handler: a snapshot dict or an
error dict `{"success": False, "error": ...}`. -/
inductive ApiResult where
  | snap (d : SnapshotData) : ApiResult
  | err (msg : String) : ApiResult
  deriving Repr, DecidableEq

/-- The external inputs of one scrape attempt: the local clock reading
(`none` = timezone exception), the page oracle (`none` = the browser
launch/navigation raises), and the wall-clock timestamp recorded in the
result. -/
structure ScrapeEnv where
  time : Option LocalTime
  page : Option PageBehaviour
  now : Nat

/-- `scrape_full_inventory()`: outside business hours return the cached
`DATA_FILE` dict with a note, or a `No cached data available` error if the
file is absent — no browser scrape. Inside business hours drive the
browser (any exception yields an error dict and leaves `DATA_FILE`
alone); on success build the result dict and write it to `DATA_FILE`.
Returns (result, new `DATA_FILE` contents, whether a browser scrape cycle
was performed). -/
def scrape_full_inventory (start stop : Nat) (env : ScrapeEnv)
    (dataFile : Option SnapshotData) :
    ApiResult × Option SnapshotData × Bool :=
  if is_business_hours start stop env.time then
    match env.page with
    | none => (ApiResult.err "scrape error", dataFile, true)
    | some pb =>
      let s := scrapePage pb
      let result : SnapshotData :=
        { success := true, ids := s.1, count := s.1.length,
          timestamp := env.now, clicks := s.2, from_cache := false,
          note := none, cache_age_seconds := none }
      (ApiResult.snap result, some result, true)
  else
    match dataFile with
    | some d =>
      (ApiResult.snap { d with note := some "Outside business hours - cached data" },
       dataFile, false)
    | none => (ApiResult.err "No cached data available", dataFile, false)

/-- What became of `notify_discord`'s webhook POST. -/
inductive NotifyOutcome where
  | notConfigured : NotifyOutcome
  | delivered : NotifyOutcome
  | failed : NotifyOutcome
  deriving Repr, DecidableEq

/-- `notify_discord(message)`: a no-op when `ENABLE_NOTIFICATIONS` is
false (no webhook configured); otherwise POSTs, and a non-204 status,
timeout or exception is logged and swallowed (`webhookDelivers` abstracts
that outcome). The function never raises and returns nothing. -/
def notify_discord (enabled webhookDelivers : Bool) : NotifyOutcome :=
  if enabled then
    if webhookDelivers then NotifyOutcome.delivered else NotifyOutcome.failed
  else NotifyOutcome.notConfigured

/-- The JSON body `force_check` returns:
`{scrape_result, sold_items, notification_sent}`. -/
structure ForceCheckResponse where
  scrape_result : ApiResult
  sold_items : List String
  notification_sent : Bool
  deriving Repr, DecidableEq

/-- One `force_check` request, decomposed into the response body, the
resulting file state, and the observations: whether `notify_discord` was
called, what its POST did, and whether a browser scrape was performed. -/
structure ForceCheckStep where
  response : ForceCheckResponse
  store : StoreState
  notifierInvoked : Bool
  notifyOutcome : Option NotifyOutcome
  scraped : Bool
  deriving Repr, DecidableEq

/-- `force_check()` (`POST /api/force-check`): run
`scrape_full_inventory`, recompute the sold set from the files, call
`notify_discord` exactly when the sold set is non-empty, and answer with
the scrape result, the sold list and `notification_sent = bool(sold)`.
`PREVIOUS_DATA_FILE` is never touched. -/
def force_check (start stop : Nat) (env : ScrapeEnv) (st : StoreState)
    (enabled webhookDelivers : Bool) : ForceCheckStep :=
  let r := scrape_full_inventory start stop env st.dataFile
  let sold := check_sold_items st.previousFile r.2.1
  { response :=
      { scrape_result := r.1, sold_items := sold,
        notification_sent := !sold.isEmpty },
    store := { dataFile := r.2.1, previousFile := st.previousFile },
    notifierInvoked := !sold.isEmpty,
    notifyOutcome :=
      if sold.isEmpty then none else some (notify_discord enabled webhookDelivers),
    scraped := r.2.2 }

/-- One `get_inventory` request (`GET /api/inventory`): the response, the
resulting file state, and whether a browser scrape was performed. -/
structure InventoryStep where
  response : ApiResult
  store : StoreState
  scraped : Bool
  deriving Repr, DecidableEq

/-- `get_inventory()`: if `DATA_FILE` exists and its mtime age is below
300 seconds, return its contents annotated `from_cache = true` with
`cache_age_seconds = int(age)` and perform no scrape; otherwise fall
through to `scrape_full_inventory` (which itself respects the gate). -/
def get_inventory (start stop : Nat) (env : ScrapeEnv) (st : StoreState)
    (age : Nat) : InventoryStep :=
  match st.dataFile with
  | some d =>
    if age < 300 then
      { response := ApiResult.snap
          { d with from_cache := true, cache_age_seconds := some age },
        store := st, scraped := false }
    else
      let r := scrape_full_inventory start stop env st.dataFile
      { response := r.1,
        store := { st with dataFile := r.2.1 },
        scraped := r.2.2 }
  | none =>
    let r := scrape_full_inventory start stop env st.dataFile
    { response := r.1,
      store := { st with dataFile := r.2.1 },
      scraped := r.2.2 }

/-- One iteration of `monitoring_loop`, decomposed into the resulting file
state and the observations: whether a scrape ran, whether `notify_discord`
was called, and whether `current` was promoted into `previous`. -/
structure CycleStep where
  store : StoreState
  scraped : Bool
  notifierInvoked : Bool
  notifyOutcome : Option NotifyOutcome
  promoted : Bool
  deriving Repr, DecidableEq

/-- The body of the `while True` in `monitoring_loop()`: outside business
hours, sleep and leave the store alone. Inside, run
`scrape_full_inventory`; if the returned dict has `success`, compute the
sold set, notify when it is non-empty, and then — if `DATA_FILE` exists —
copy it into `PREVIOUS_DATA_FILE` (promotion). On a failed scrape no
promotion happens. -/
def monitor_cycle (start stop : Nat) (env : ScrapeEnv) (st : StoreState)
    (enabled webhookDelivers : Bool) : CycleStep :=
  if is_business_hours start stop env.time then
    let r := scrape_full_inventory start stop env st.dataFile
    match r.1 with
    | ApiResult.snap d =>
      if d.success then
        let sold := check_sold_items st.previousFile r.2.1
        let outcome :=
          if sold.isEmpty then none
          else some (notify_discord enabled webhookDelivers)
        match r.2.1 with
        | some data =>
          { store := { dataFile := r.2.1, previousFile := some data },
            scraped := r.2.2, notifierInvoked := !sold.isEmpty,
            notifyOutcome := outcome, promoted := true }
        | none =>
          { store := { dataFile := r.2.1, previousFile := st.previousFile },
            scraped := r.2.2, notifierInvoked := !sold.isEmpty,
            notifyOutcome := outcome, promoted := false }
      else
        { store := { dataFile := r.2.1, previousFile := st.previousFile },
          scraped := r.2.2, notifierInvoked := false,
          notifyOutcome := none, promoted := false }
    | ApiResult.err _ =>
      { store := { dataFile := r.2.1, previousFile := st.previousFile },
        scraped := r.2.2, notifierInvoked := false,
        notifyOutcome := none, promoted := false }
  else
    { store := st, scraped := false, notifierInvoked := false,
      notifyOutcome := none, promoted := false }

/-! Concrete fixtures used by counterexamples and witnesses. -/

/-- A persisted snapshot whose only identifier is `"1001"`. -/
def snapA : SnapshotData :=
  { success := true, ids := ["1001"], count := 1, timestamp := 0,
    clicks := 0, from_cache := false, note := none,
    cache_age_seconds := none }

/-- A page whose markup shows only identifier `"2002"` and whose
`Load More` control is never visible. -/
def pageB : PageBehaviour :=
  { idsAt := fun _ => ["2002"], loadMoreVisible := fun _ => false,
    clickRaises := fun _ => false, finalIds := ["2002"] }

/-- A page whose `Load More` control is always visible and whose clicks
never raise: the expansion loop has to stop on the click counter alone. -/
def pageForever : PageBehaviour :=
  { idsAt := fun _ => [], loadMoreVisible := fun _ => true,
    clickRaises := fun _ => false, finalIds := [] }

/-- The snapshot a successful scrape of `pageB` at timestamp 5 writes. -/
def snapB : SnapshotData :=
  { success := true, ids := ["2002"], count := 1, timestamp := 5,
    clicks := 0, from_cache := false, note := none,
    cache_age_seconds := none }

/-- A request arriving at 13:00 local time, with `pageB` behind the
browser, at wall-clock timestamp 5. -/
def envB : ScrapeEnv := { time := some ⟨13, 0⟩, page := some pageB, now := 5 }

/-- A request arriving at 10:00 local time (outside `[12,19)`). -/
def envQuiet : ScrapeEnv := { time := some ⟨10, 0⟩, page := some pageB, now := 0 }

/-- Both snapshot files hold `snapA`. -/
def stA : StoreState := { dataFile := some snapA, previousFile := some snapA }

/-! Helper lemmas shared by the claim theorems. -/

/-- The expansion loop increments the click counter at most once per unit
of fuel. -/
theorem loadMoreLoop_clicks_le (pb : PageBehaviour) :
    ∀ fuel clicks acc, (loadMoreLoop pb fuel clicks acc).2 ≤ clicks + fuel := by
  intro fuel
  induction fuel with
  | zero => intro clicks acc; exact Nat.le_add_right _ _
  | succ n ih =>
    intro clicks acc
    simp only [loadMoreLoop]
    split
    · exact Nat.le_add_right _ _
    · split
      · have h := ih (clicks + 1) (acc ++ pb.idsAt clicks)
        omega
      · exact Nat.le_add_right _ _

/-- When the control stays visible and clicking never raises, the loop
consumes all its fuel, one click per unit. -/
theorem loadMoreLoop_clicks_forever (pb : PageBehaviour)
    (hvis : ∀ n, pb.loadMoreVisible n = true)
    (hraise : ∀ n, pb.clickRaises n = false) :
    ∀ fuel clicks acc, (loadMoreLoop pb fuel clicks acc).2 = clicks + fuel := by
  intro fuel
  induction fuel with
  | zero => intro clicks acc; rfl
  | succ n ih =>
    intro clicks acc
    simp only [loadMoreLoop, hvis, hraise, Bool.false_eq_true, if_false, if_true]
    have h := ih (clicks + 1) (acc ++ pb.idsAt clicks)
    omega

/-- `scrape_full_inventory` performs a browser scrape cycle exactly when
the time gate is active. -/
theorem scrape_scraped_eq_gate (start stop : Nat) (env : ScrapeEnv)
    (df : Option SnapshotData) :
    (scrape_full_inventory start stop env df).2.2
      = is_business_hours start stop env.time := by
  unfold scrape_full_inventory
  split
  · next h => cases env.page <;> simp_all
  · next h => cases df <;> simp_all

end Trashion

namespace Trashion

/-- **C1.** The sold-item computation: with both snapshot files present it
returns exactly (as a sorted list) the set difference
`previous.ids − current.ids`; diffing a snapshot against itself yields the
empty list; and with no previous snapshot it returns the empty list. -/
theorem check_sold_items_is_set_difference :
    (∀ prev curr : SnapshotData,
      (check_sold_items (some prev) (some curr)).toFinset
        = prev.ids.toFinset \ curr.ids.toFinset)
    ∧ (∀ a : SnapshotData, check_sold_items (some a) (some a) = [])
    ∧ (∀ d : Option SnapshotData, check_sold_items none d = []) := by
  refine ⟨fun prev curr => ?_, fun a => ?_, fun d => rfl⟩
  · ext x
    have hperm := List.perm_insertionSort (α := String) (· ≤ ·)
      (prev.ids.dedup.filter (fun i => decide (i ∉ curr.ids)))
    rw [check_sold_items, List.toFinset_eq_of_perm _ _ hperm]
    simp [List.mem_filter, List.mem_dedup, Finset.mem_sdiff]
  · have hnil : a.ids.dedup.filter (fun i => decide (i ∉ a.ids)) = [] := by
      rw [List.filter_eq_nil_iff]
      intro x hx
      simp only [List.mem_dedup] at hx
      simp [hx]
    rw [check_sold_items, hnil]
    rfl

/-- **C4.** The gate decides the active window by the half-open interval
`[start_hour, end_hour)` on the local hour: with business hours `[12,19)`,
11:59 is QUIET, 12:00 is ACTIVE, 18:59 is ACTIVE, and 19:00 is QUIET. -/
theorem is_business_hours_half_open_interval :
    is_business_hours 12 19 (some ⟨11, 59⟩) = false
    ∧ is_business_hours 12 19 (some ⟨12, 0⟩) = true
    ∧ is_business_hours 12 19 (some ⟨18, 59⟩) = true
    ∧ is_business_hours 12 19 (some ⟨19, 0⟩) = false := by
  decide

/-- **C9.** If evaluating the time gate raises (timezone lookup failure,
modelled as `time = none`), `is_business_hours` returns `true` — it fails
open, for any configured start and end hours. -/
theorem is_business_hours_fails_open (start stop : Nat) :
    is_business_hours start stop none = true :=
  rfl

/-- **C2, counterexample.** At 10:00 local time (outside `[12,19)`) a
force-check request performs no browser scrape: `scrape_full_inventory`
takes its cached-data branch and returns the stored snapshot with a note,
refuting "performs a synchronous scrape cycle unconditionally, regardless
of the time gate". -/
theorem force_check_skips_scrape_outside_window :
    (force_check 12 19 envQuiet stA true true).scraped = false
    ∧ (force_check 12 19 envQuiet stA true true).response.scrape_result
      = ApiResult.snap
          { snapA with note := some "Outside business hours - cached data" } := by
  constructor <;> rfl

/-- **C2, amended.** A force-check request performs a synchronous browser
scrape cycle exactly when the time gate is active; outside the active
window the underlying scrape falls back to cached data (or a no-data
failure) and no scrape is performed. -/
theorem force_check_scrapes_iff_gate_active (start stop : Nat)
    (env : ScrapeEnv) (st : StoreState) (e w : Bool) :
    (force_check start stop env st e w).scraped
      = is_business_hours start stop env.time := by
  have h : (force_check start stop env st e w).scraped
      = (scrape_full_inventory start stop env st.dataFile).2.2 := rfl
  rw [h, scrape_scraped_eq_gate]

/-- **C3, counterexample.** A force-check at 13:00 completes a successful
scrape cycle whose `current` (`snapB`, ids `["2002"]`) differs from the
old snapshot `snapA` (ids `["1001"]`), yet `previous` still holds `snapA`
afterwards: force-check never promotes, so `previous` is not the
`current` of the prior completed successful cycle. -/
theorem force_check_leaves_previous_stale :
    (force_check 12 19 envB stA true true).response.scrape_result
      = ApiResult.snap snapB
    ∧ snapB.success = true
    ∧ (force_check 12 19 envB stA true true).store.dataFile = some snapB
    ∧ (force_check 12 19 envB stA true true).store.previousFile = some snapA
    ∧ snapA ≠ snapB := by
  decide

/-- **C3, amended.** In the background monitoring loop, whenever the cycle
promotes, `previous` afterwards equals the cycle's `current`
(`DATA_FILE`), and whenever it does not promote (failed scrape or quiet
window) `previous` is unchanged; the force-check endpoint never updates
`previous`, even when its cycle completes successfully. -/
theorem previous_promoted_only_in_monitor_cycle (start stop : Nat)
    (env : ScrapeEnv) (st : StoreState) (e w : Bool) :
    ((monitor_cycle start stop env st e w).promoted = true →
      (monitor_cycle start stop env st e w).store.previousFile
        = (monitor_cycle start stop env st e w).store.dataFile)
    ∧ ((monitor_cycle start stop env st e w).promoted = false →
      (monitor_cycle start stop env st e w).store.previousFile
        = st.previousFile)
    ∧ (force_check start stop env st e w).store.previousFile
      = st.previousFile := by
  refine ⟨?_, ?_, rfl⟩ <;>
  · simp only [monitor_cycle]
    split
    · split
      · split
        · split <;> intro hp <;> simp_all
        · intro hp; simp_all
      · intro hp; simp_all
    · intro hp; simp_all

/-- **C3, witness.** At 13:00 with `pageB` the monitoring cycle promotes,
and afterwards `previous` equals the new `current`; the same inputs run
through force-check leave `previous` at its old value. -/
theorem previous_promoted_only_in_monitor_cycle_witness :
    ((monitor_cycle 12 19 envB stA true true).store.previousFile
      = (monitor_cycle 12 19 envB stA true true).store.dataFile)
    ∧ ((monitor_cycle 12 19 envQuiet stA true true).store.previousFile
      = stA.previousFile)
    ∧ (force_check 12 19 envB stA true true).store.previousFile
      = stA.previousFile :=
  ⟨(previous_promoted_only_in_monitor_cycle 12 19 envB stA true true).1
      (by decide),
   (previous_promoted_only_in_monitor_cycle 12 19 envQuiet stA true true).2.1
      (by decide),
   (previous_promoted_only_in_monitor_cycle 12 19 envB stA true true).2.2⟩

/-- **C5.** For every page behaviour the pagination-expansion loop
performs at most `max_clicks = 20` expansion activations, and when the
`Load More` control never disappears (always visible, clicks never raise)
it performs exactly 20 and then stops. -/
theorem pagination_loop_bounded :
    (∀ pb : PageBehaviour, (scrapePage pb).2 ≤ 20)
    ∧ (∀ pb : PageBehaviour, (∀ n, pb.loadMoreVisible n = true) →
        (∀ n, pb.clickRaises n = false) → (scrapePage pb).2 = 20) := by
  constructor
  · intro pb
    have h := loadMoreLoop_clicks_le pb max_clicks 0 ∅
    simpa [scrapePage, max_clicks] using h
  · intro pb hvis hraise
    have h := loadMoreLoop_clicks_forever pb hvis hraise max_clicks 0 ∅
    simpa [scrapePage, max_clicks] using h

/-- **C5, witness.** On the page whose `Load More` control never
disappears, the loop performs exactly 20 activations (and at most 20). -/
theorem pagination_loop_bounded_witness :
    (scrapePage pageForever).2 ≤ 20 ∧ (scrapePage pageForever).2 = 20 :=
  ⟨pagination_loop_bounded.1 pageForever,
   pagination_loop_bounded.2 pageForever (fun _ => rfl) (fun _ => rfl)⟩

/-- **C6.** When `DATA_FILE` holds a snapshot whose age is below the
300-second freshness threshold, `get_inventory` returns exactly that
snapshot annotated `from_cache = true` with `cache_age_seconds` equal to
its age, leaves the store unchanged, and performs no scrape. -/
theorem get_inventory_serves_fresh_cache (start stop : Nat)
    (env : ScrapeEnv) (st : StoreState) (age : Nat) (d : SnapshotData)
    (hd : st.dataFile = some d) (hage : age < 300) :
    get_inventory start stop env st age =
      { response := ApiResult.snap
          { d with from_cache := true, cache_age_seconds := some age },
        store := st, scraped := false } := by
  unfold get_inventory
  rw [hd]
  simp [hage]

/-- **C6, witness.** A snapshot 120 seconds old is served from cache with
`cache_age_seconds = 120` and no scrape. -/
theorem get_inventory_serves_fresh_cache_witness :
    stA.dataFile = some snapA ∧ 120 < 300
    ∧ get_inventory 12 19 envB stA 120 =
      { response := ApiResult.snap
          { snapA with from_cache := true, cache_age_seconds := some 120 },
        store := stA, scraped := false } :=
  ⟨rfl, by decide,
   get_inventory_serves_fresh_cache 12 19 envB stA 120 snapA rfl (by decide)⟩

/-- **C7.** A `get_inventory` request outside the active window with no
persisted snapshot returns the structured `No cached data available`
failure value (no exception is modelled: every path yields a result),
leaves the store unchanged, and performs no scrape. -/
theorem get_inventory_no_cached_data_failure (start stop : Nat)
    (env : ScrapeEnv) (st : StoreState) (age : Nat)
    (hd : st.dataFile = none)
    (hgate : is_business_hours start stop env.time = false) :
    get_inventory start stop env st age =
      { response := ApiResult.err "No cached data available",
        store := st, scraped := false } := by
  obtain ⟨df, pf⟩ := st
  simp only at hd
  subst hd
  unfold get_inventory scrape_full_inventory
  simp [hgate]

/-- **C7, witness.** At 10:00 with both files absent, the inventory
handler answers with the `No cached data available` failure. -/
theorem get_inventory_no_cached_data_failure_witness :
    (StoreState.mk none none).dataFile = none
    ∧ is_business_hours 12 19 envQuiet.time = false
    ∧ get_inventory 12 19 envQuiet ⟨none, none⟩ 0 =
      { response := ApiResult.err "No cached data available",
        store := ⟨none, none⟩, scraped := false } :=
  ⟨rfl, by decide,
   get_inventory_no_cached_data_failure 12 19 envQuiet ⟨none, none⟩ 0 rfl
     (by decide)⟩

/-- **C8.** When a force-check request's sold set comes out empty, the
response carries `notification_sent = false` and `notify_discord` is
never called. -/
theorem force_check_empty_sold_no_notification (start stop : Nat)
    (env : ScrapeEnv) (st : StoreState) (e w : Bool)
    (h : (force_check start stop env st e w).response.sold_items = []) :
    (force_check start stop env st e w).response.notification_sent = false
    ∧ (force_check start stop env st e w).notifierInvoked = false
    ∧ (force_check start stop env st e w).notifyOutcome = none := by
  have hsent : (force_check start stop env st e w).response.notification_sent
      = !(force_check start stop env st e w).response.sold_items.isEmpty := rfl
  have hinv : (force_check start stop env st e w).notifierInvoked
      = !(force_check start stop env st e w).response.sold_items.isEmpty := rfl
  have hout : (force_check start stop env st e w).notifyOutcome
      = (if (force_check start stop env st e w).response.sold_items.isEmpty
          then none else some (notify_discord e w)) := rfl
  rw [hsent, hinv, hout, h]
  exact ⟨rfl, rfl, rfl⟩

/-- **C8, witness.** With no previous snapshot the sold set is empty, so a
force-check at 13:00 reports `notification_sent = false` and never calls
the notifier. -/
theorem force_check_empty_sold_no_notification_witness :
    (force_check 12 19 envB ⟨some snapA, none⟩ true true).response.sold_items
      = []
    ∧ (force_check 12 19 envB ⟨some snapA, none⟩ true true).response.notification_sent
      = false
    ∧ (force_check 12 19 envB ⟨some snapA, none⟩ true true).notifierInvoked
      = false
    ∧ (force_check 12 19 envB ⟨some snapA, none⟩ true true).notifyOutcome
      = none := by
  have h := force_check_empty_sold_no_notification 12 19 envB
    ⟨some snapA, none⟩ true true (by decide)
  exact ⟨by decide, h.1, h.2.1, h.2.2⟩

/-- **C10.** The `notification_sent` field of a force-check response
equals "the sold set is non-empty", for every choice of notifications
enabled/disabled and webhook success/failure: a non-empty sold set yields
`notification_sent = true` regardless of whether any webhook POST was
attempted or succeeded. -/
theorem force_check_notification_sent_reports_sold (start stop : Nat)
    (env : ScrapeEnv) (st : StoreState) (e w : Bool) :
    (force_check start stop env st e w).response.notification_sent
      = !(force_check start stop env st e w).response.sold_items.isEmpty
    ∧ ((force_check start stop env st e w).response.sold_items ≠ [] →
      (force_check start stop env st e w).response.notification_sent = true) := by
  refine ⟨rfl, fun h => ?_⟩
  have hsent : (force_check start stop env st e w).response.notification_sent
      = !(force_check start stop env st e w).response.sold_items.isEmpty := rfl
  rw [hsent]
  cases hl : (force_check start stop env st e w).response.sold_items with
  | nil => exact absurd hl h
  | cons a l => rfl

/-- **C10, witness.** A force-check whose sold set is `["1001"]`, run with
notifications disabled (so no webhook POST is ever attempted), still
answers `notification_sent = true`. -/
theorem force_check_notification_sent_reports_sold_witness :
    (force_check 12 19 envB stA false false).response.sold_items ≠ []
    ∧ (force_check 12 19 envB stA false false).response.sold_items = ["1001"]
    ∧ (force_check 12 19 envB stA false false).notifyOutcome
      = some NotifyOutcome.notConfigured
    ∧ (force_check 12 19 envB stA false false).response.notification_sent
      = true :=
  ⟨by decide, by decide, by decide,
   (force_check_notification_sent_reports_sold 12 19 envB stA false false).2
     (by decide)⟩

end Trashion
